import Mathlib

/-!
# Verification of the SE-Better-Start membership / invitation workflow

Shallow embedding of the company-membership, invitation, task, sales and
authentication handlers of the backend (`src/backend/src/features/...`).
Database tables are lists of rows; a handler is a pure function from its
request data and the current state to a response (`Except HTTPError α`)
and the committed state.  Rows are appended exactly where the Python code
calls `session.add` followed by `session.commit`.
-/

namespace SEBetterStart

/-- Propositional equality on handler results is decidable, so concrete runs
can be checked by `decide`. -/
instance {ε α : Type} [DecidableEq ε] [DecidableEq α] : DecidableEq (Except ε α) := fun a b =>
  match a, b with
  | .error x, .error y =>
      if h : x = y then .isTrue (by rw [h]) else .isFalse (fun hc => h (Except.error.inj hc))
  | .error _, .ok _ => .isFalse (fun hc => Except.noConfusion hc)
  | .ok _, .error _ => .isFalse (fun hc => Except.noConfusion hc)
  | .ok x, .ok y =>
      if h : x = y then .isTrue (by rw [h]) else .isFalse (fun hc => h (Except.ok.inj hc))

/-- Python's `str.lower()` as used on the ASCII role strings: lower-case every
character. -/
def lower (s : String) : String := ⟨s.data.map Char.toLower⟩

/-- A row of the `User` table (`models.User`): integer primary key, unique
email, name, password hash (`list_company_members` serializes `user_obj.id`
and the task router selects on `User.id`). -/
structure User where
  id : Nat
  email : String
  name : String
  password : String
deriving DecidableEq, Repr

/-- A row of the `Company` table: id (autoincrement), name, owning user's email. -/
structure Company where
  id : Nat
  name : String
  user_id : String
deriving DecidableEq, Repr

/-- A row of the `CompanyMember` table.  `user_id` and `company_id` are optional
because `accept_invitation_link` inserts whatever `payload.get(...)` returns,
which is `None` when the key is absent from the decoded token. -/
structure CompanyMember where
  user_id : Option String
  company_id : Option Nat
  role : String
  position : String
deriving DecidableEq, Repr

/-- A row of the `Task` table (only the fields the embedded handlers touch). -/
structure Task where
  id : Nat
  title : String
  status : String
deriving DecidableEq, Repr

/-- A row of the `TaskMember` table (task_router.py joins it on `task_id` and
resolves `User.id == m.user_id`, so `user_id` is the integer user id). -/
structure TaskMember where
  task_id : Nat
  user_id : Nat
  work : String
deriving DecidableEq, Repr

/-- A row of the `Sale` table (only the fields the embedded handlers touch). -/
structure Sale where
  id : Nat
  company_id : Option Nat
  amount : Nat
deriving DecidableEq, Repr

/-- `schemas.TokenData`: the session-token snapshot of the caller's identity and
membership.  `company_id` and `role` are `None` for a user with no membership
(see `authenticate_user`). -/
structure TokenData where
  email : String
  company_id : Option Nat := none
  role : Option String := none
deriving DecidableEq, Repr

/-- The whole persisted state: one list per table, plus the autoincrement
counter handing out `Company.id`. -/
structure AppState where
  users : List User := []
  companies : List Company := []
  members : List CompanyMember := []
  tasks : List Task := []
  task_members : List TaskMember := []
  sales : List Sale := []
  next_company_id : Nat := 1
deriving DecidableEq, Repr

/-- `fastapi.HTTPException`: an HTTP status code and a human-readable detail. -/
structure HTTPError where
  status_code : Nat
  detail : String
deriving DecidableEq, Repr

/-- `schemas.Message`: the success response wrapper. -/
structure Message where
  message : String
deriving DecidableEq, Repr

/-- The two values of `enums.MemberRole` (the enum module is not under `src/`;
the task router compares the session role to the string "Admin" and the spec's
role set is Admin/Member, so the enum values are the strings below). -/
def MemberRole.ADMIN : String := "Admin"

/-- See `MemberRole.ADMIN`. -/
def MemberRole.MEMBER : String := "Member"

/-- The claims bundle carried by an invitation JWT.  Every field is optional
because `accept_invitation_link` reads them with `payload.get`; `exp` is the
embedded expiration timestamp. -/
structure JwtPayload where
  new_member_email : Option String := none
  company_id : Option Nat := none
  role : Option String := none
  position : Option String := none
  exp : Nat := 0
deriving DecidableEq, Repr

/-- A signed token: its payload plus whether its signature verifies. -/
structure JwtToken where
  payload : JwtPayload
  signature_valid : Bool := true
deriving DecidableEq, Repr

/-- Modelled from the spec: `src/utils/jwt_utils.py` (the Token Codec) is not
under `src/`.  Per spec §4.1, decoding fails with `InvalidToken` when the
signature does not verify or the payload's expiration timestamp has passed;
failure is surfaced here as `none`, which `join_company_via_invite` tests with
`if not data` and `accept_invitation_link` catches with `try/except`. -/
def decode_jwt_token (tok : JwtToken) (now : Nat) : Option JwtPayload :=
  if tok.signature_valid = true ∧ now < tok.payload.exp then some tok.payload else none

/-- Modelled from the spec: `company_schemas.InvitationToken` is not under
`src/`.  Per spec §3 an InvitationToken is `{company_id, role, position,
 optional target email}`; pydantic validation fails when a required field is
absent from the decoded dict. -/
structure InvitationToken where
  company_id : Nat
  role : String
  position : String
deriving DecidableEq, Repr

/-- The pydantic validation step `schema.InvitationToken(**data)` of
`join_company_via_invite`: requires `company_id`, `role` and `position`. -/
def parseInvitationToken (p : JwtPayload) : Option InvitationToken :=
  match p.company_id, p.role, p.position with
  | some c, some r, some pos => some ⟨c, r, pos⟩
  | _, _, _ => none

/-- `company_schemas.CompanyCreate` (request body for create/update company);
only the name field matters to the embedded logic. -/
structure CompanyCreate where
  name : String
deriving DecidableEq, Repr

/-! ## Company router (`features/company/company_router.py`) -/

/-- `POST /company/create` (`create_company`, company_router.py:25-62).
Rejects with 403 when the caller already has any `CompanyMember` row;
otherwise commits the `Company` row (first `session.commit()`), then commits
the founding member row `{creator, company.id, Admin, "Founder"}` (second
`session.commit()`). -/
def create_company (company_info : CompanyCreate) (user : TokenData) (st : AppState) :
    Except HTTPError Message × AppState :=
  match st.members.find? (fun m => m.user_id == some user.email) with
  | some _ =>
      (.error ⟨403, "You already own or belong to a company. You cannot create another one."⟩,
       st)
  | none =>
      let new_company : Company := ⟨st.next_company_id, company_info.name, user.email⟩
      let st1 : AppState :=
        { st with companies := st.companies ++ [new_company],
                  next_company_id := st.next_company_id + 1 }
      let company_member : CompanyMember :=
        ⟨some user.email, some new_company.id, MemberRole.ADMIN, "Founder"⟩
      (.ok ⟨"Company created successfully"⟩,
       { st1 with members := st1.members ++ [company_member] })

/-- The state committed by `create_company` up to and including its FIRST
`session.commit()` (company_router.py:49): the `Company` row is durable, the
founding `CompanyMember` row has not been inserted yet.  This is the state an
observer (or a crash) sees between the two commits of the handler. -/
def create_company_after_first_commit (company_info : CompanyCreate) (user : TokenData)
    (st : AppState) : AppState :=
  match st.members.find? (fun m => m.user_id == some user.email) with
  | some _ => st
  | none =>
      let new_company : Company := ⟨st.next_company_id, company_info.name, user.email⟩
      { st with companies := st.companies ++ [new_company],
                next_company_id := st.next_company_id + 1 }

/-- `GET /company/invitation/join?token=` (`join_company_via_invite`,
company_router.py:98-144).  Order of checks follows the source: existing
membership of the caller (403), token decode (403), pydantic validation of the
payload (an uncaught `ValidationError`, surfaced as 500), company existence
(404); on success the caller's member row is committed. -/
def join_company_via_invite (token : JwtToken) (user : TokenData) (now : Nat)
    (st : AppState) : Except HTTPError Message × AppState :=
  match st.members.find? (fun m => m.user_id == some user.email) with
  | some _ => (.error ⟨403, "You are already a member of a company."⟩, st)
  | none =>
      match decode_jwt_token token now with
      | none => (.error ⟨403, "Invalid or expired invitation token."⟩, st)
      | some data =>
          match parseInvitationToken data with
          | none => (.error ⟨500, "Internal Server Error"⟩, st)
          | some inv =>
              match st.companies.find? (fun c => c.id == inv.company_id) with
              | none => (.error ⟨404, "Company does not exist."⟩, st)
              | some company =>
                  let new_member : CompanyMember :=
                    ⟨some user.email, some company.id, inv.role, inv.position⟩
                  (.ok ⟨"You have successfully joined the company: " ++ company.name⟩,
                   { st with members := st.members ++ [new_member] })

/-- The `CompanyMember` row built by `accept_invitation_link` from a decoded
payload: `payload.get("new_member_email")`, `payload.get("company_id")`,
`payload.get("role", MemberRole.MEMBER)`, `payload.get("position", "Employee")`. -/
def member_from_payload (p : JwtPayload) : CompanyMember :=
  ⟨p.new_member_email, p.company_id, p.role.getD MemberRole.MEMBER,
   p.position.getD "Employee"⟩

/-- `GET /company/join?token=` (`accept_invitation_link`,
company_router.py:277-309).  The route has NO authentication dependency (it is
public); the handler decodes the token (invalid/expired → 400) and immediately
commits a `CompanyMember` row built from the payload, with no check that the
caller is the invited user, that a `User` with that email exists, that the
company exists, or that the email is not already a member. -/
def accept_invitation_link (token : JwtToken) (now : Nat) (st : AppState) :
    Except HTTPError Message × AppState :=
  match decode_jwt_token token now with
  | none => (.error ⟨400, "Invalid or expired invitation token."⟩, st)
  | some payload =>
      (.ok ⟨"You have successfully joined the company."⟩,
       { st with members := st.members ++ [member_from_payload payload] })

/-- `GET /company/join` as experienced by a bearer whose identity is
`redeemer`.  The route declares no authentication dependency, so the handler
never reads the bearer's identity; this wrapper makes that explicit so that
identity-sensitive properties can be stated. -/
def accept_invitation_link_as (_redeemer : String) (token : JwtToken) (now : Nat)
    (st : AppState) : Except HTTPError Message × AppState :=
  accept_invitation_link token now st

/-- Modelled from the spec: `company_services.update_company_by_id` is not
under `src/`.  Per spec §6 the `PUT /company/{id}` handler updates the company
the caller belongs to (the session snapshot's `company_id`) with the request
body. -/
def update_company_by_id (update_data : CompanyCreate) (user : TokenData)
    (companies : List Company) : Except HTTPError (List Company) :=
  match user.company_id with
  | none => .error ⟨404, "Company not found"⟩
  | some cid =>
      if companies.any (fun c => c.id == cid) then
        .ok (companies.map fun c => if c.id == cid then { c with name := update_data.name } else c)
      else .error ⟨404, "Company not found"⟩

/-- `PUT /company/{company_id}` (`update_company`, company_router.py:170-191).
The guard (lines 179-189) only checks that SOME `CompanyMember` row exists for
the caller — it does not test the row's role — then delegates to the update
service. -/
def update_company (update_data : CompanyCreate) (user : TokenData) (st : AppState) :
    Except HTTPError CompanyCreate × AppState :=
  match st.members.find? (fun m => m.user_id == some user.email) with
  | none => (.error ⟨403, "You are not associated with this company."⟩, st)
  | some _ =>
      match update_company_by_id update_data user st.companies with
      | .error e => (.error e, st)
      | .ok cs => (.ok update_data, { st with companies := cs })

/-- `company_schemas.CompanyMemberInfo`: one row of the member-list response
built at company_router.py:215-221 (`id` is `None` when no `User` row matches
the membership's email). -/
structure CompanyMemberInfo where
  id : Option Nat
  name : String
  position : String
deriving DecidableEq, Repr

/-- `GET /company/company/members` (`list_company_members`,
company_router.py:194-222).  The only guard is `if not user.company_id` —
the session snapshot's company id must be truthy (Python treats both `None`
and `0` as falsy); the caller's ROLE is never examined.  Each member row of
the caller's company is joined against the `User` table by email. -/
def list_company_members (user : TokenData) (st : AppState) :
    Except HTTPError (List CompanyMemberInfo) :=
  match user.company_id with
  | none => .error ⟨403, "You are not associated with any company."⟩
  | some cid =>
      if cid = 0 then .error ⟨403, "You are not associated with any company."⟩
      else
        .ok ((st.members.filter (fun m => m.company_id == some cid)).map (fun m =>
          match st.users.find? (fun u => some u.email == m.user_id) with
          | some user_obj => ⟨some user_obj.id, user_obj.name, m.position⟩
          | none => ⟨none, "", m.position⟩))

/-! ## Task router (`features/kanban/task_router.py`) -/

/-- One entry of the `members` list of a task response
(task_router.py:58-63).  `photo` is omitted: the in-scope `User` has no photo
field (spec §3) and the claims do not touch it. -/
structure MemberRef where
  id : Nat
  name : String
  work : String
deriving DecidableEq, Repr

/-- `task_schemas.TaskResponse`: the task's own fields plus the resolved
member references. -/
structure TaskResponse where
  id : Nat
  title : String
  status : String
  members : List MemberRef
deriving DecidableEq, Repr

/-- Modelled from the spec: `task_services.get_task` is not under `src/`.
Per spec §4.2/§6 a task view requires only that the caller hold a membership
row — no role check — and fetches the task by id. -/
def get_task (task_id : Nat) (user : TokenData) (st : AppState) : Option Task :=
  if st.members.any (fun m => m.user_id == some user.email) then
    st.tasks.find? (fun t => t.id == task_id)
  else none

/-- `GET /tasks/{task_id}` (`read_task_by_task_id`, task_router.py:42-66).
No role check: the handler fetches via `get_task`, 404s when absent, then
resolves each `TaskMember` against the `User` table by integer id.  The
`CompanyMember` lookup at lines 52-54 compares the string `user_id` column
with the integer `m.user_id`, which never matches, so the `work` field always
takes the `m.work` fallback of line 61. -/
def read_task_by_task_id (task_id : Nat) (user : TokenData) (st : AppState) :
    Except HTTPError TaskResponse :=
  match get_task task_id user st with
  | none => .error ⟨404, "Task not found"⟩
  | some task =>
      let member_refs :=
        (st.task_members.filter (fun m => m.task_id == task.id)).map (fun m =>
          match st.users.find? (fun u => u.id == m.user_id) with
          | some user_obj => (⟨m.user_id, user_obj.name, m.work⟩ : MemberRef)
          | none => ⟨m.user_id, "", m.work⟩)
      .ok ⟨task.id, task.title, task.status, member_refs⟩

/-- Modelled from the spec: `task_services.update_task_status` is not under
`src/`.  Per spec §8, a status change on an existing `task_id` updates that
task's status and reports success; an absent task reports failure. -/
def update_task_status (task_id : Nat) (new_status : String) (tasks : List Task) :
    Option (List Task) :=
  if tasks.any (fun t => t.id == task_id) then
    some (tasks.map fun t => if t.id == task_id then { t with status := new_status } else t)
  else none

/-- `PATCH /tasks/{task_id}/status` (`change_task_status`,
task_router.py:112-122).  Unlike every other mutating task handler, it
performs NO role check on `user` before mutating.  (In the not-found branch
the source evaluates `status.HTTP_404_NOT_FOUND` on the shadowing
`KanbanStatus` parameter, an `AttributeError` surfaced as 500.) -/
def change_task_status (task_id : Nat) (new_status : String) (user : TokenData)
    (st : AppState) : Except HTTPError Message × AppState :=
  match update_task_status task_id new_status st.tasks with
  | some updated => (.ok ⟨"Task status updated successfully"⟩, { st with tasks := updated })
  | none => (.error ⟨500, "Internal Server Error"⟩, st)

/-! ## Sales router (`features/sales/sales_router.py`) -/

/-- `admin_required` (sales_router.py:13-16): rejects with 403 "Admins only"
unless `user.role.lower() == "admin"`.  A `None` role raises `AttributeError`
on `.lower()`, surfaced as 500. -/
def admin_required (user : TokenData) : Except HTTPError TokenData :=
  match user.role with
  | none => .error ⟨500, "Internal Server Error"⟩
  | some r => if lower r ≠ "admin" then .error ⟨403, "Admins only"⟩ else .ok user

/-- Modelled from the spec: `sales_services.get_sale` is not under `src/`.
Fetches the sale with the given id belonging to the caller's company. -/
def get_sale (sale_id : Nat) (cid : Option Nat) (sales : List Sale) : Option Sale :=
  sales.find? (fun s => s.id == sale_id && s.company_id == cid)

/-- Modelled from the spec: `sales_services.get_all_sales` is not under
`src/`.  Lists the sales of the caller's company. -/
def get_all_sales (cid : Option Nat) (sales : List Sale) : List Sale :=
  sales.filter (fun s => s.company_id == cid)

/-- `GET /sales/{sale_id}` (`read_sale`, sales_router.py:57-66).  The `user`
dependency is `Depends(admin_required)`: the admin gate runs BEFORE the
handler body, so a non-admin never reaches the lookup. -/
def read_sale (sale_id : Nat) (user : TokenData) (st : AppState) :
    Except HTTPError Sale :=
  match admin_required user with
  | .error e => .error e
  | .ok u =>
      match get_sale sale_id u.company_id st.sales with
      | none => .error ⟨404, "Sale not found"⟩
      | some s => .ok s

/-- `GET /sales/` (`read_all_sales`, sales_router.py:38-43), likewise gated by
`Depends(admin_required)`. -/
def read_all_sales (user : TokenData) (st : AppState) :
    Except HTTPError (List Sale) :=
  match admin_required user with
  | .error e => .error e
  | .ok u => .ok (get_all_sales u.company_id st.sales)

/-! ## User services (`features/user/user_services.py`) -/

/-- `authenticate_user` (user_services.py:33-56).  `verify` is the external
password-verification collaborator (`hashing.verify`).  The source raises one
single `HTTPException(401, "Invalid email or password")` from the combined
condition `if not user or not hashing.verify(...)`; the nested match below
renders the same short-circuit order.  On success the membership snapshot
(`company_id`, `role`, both `None` without a membership row) is embedded in
the token data. -/
def authenticate_user (verify : String → String → Bool) (username password : String)
    (st : AppState) : Except HTTPError TokenData :=
  match st.users.find? (fun u => u.email == username) with
  | none => .error ⟨401, "Invalid email or password"⟩
  | some user =>
      if verify password user.password = false then
        .error ⟨401, "Invalid email or password"⟩
      else
        match st.members.find? (fun m => m.user_id == some user.email) with
        | none => .ok ⟨user.email, none, none⟩
        | some member => .ok ⟨user.email, member.company_id, some member.role⟩

/-! ## The single-company-per-user invariant -/

/-- Number of `CompanyMember` rows held by the user with email `u`. -/
def memberRowsFor (u : String) (st : AppState) : Nat :=
  st.members.countP (fun m => m.user_id == some u)

/-- Spec §3: a `user_id` appears in at most one `CompanyMember` row
system-wide. -/
def SingleCompanyInvariant (st : AppState) : Prop :=
  ∀ u : String, memberRowsFor u st ≤ 1

/-! ## Helper lemmas -/

/-- A state whose member table holds at most one row satisfies the
single-company invariant. -/
lemma singleCompany_of_length_le_one (st : AppState) (h : st.members.length ≤ 1) :
    SingleCompanyInvariant st :=
  fun _ => le_trans (List.countP_le_length _) h

/-- Appending one member row for `e` to a table with no row for `e` keeps
every user's row count at most one. -/
lemma countP_member_append_le_one (l : List CompanyMember) (row : CompanyMember) (e : String)
    (hrow : row.user_id = some e)
    (hnone : l.find? (fun m => m.user_id == some e) = none)
    (hinv : ∀ u, l.countP (fun m => m.user_id == some u) ≤ 1) (u : String) :
    (l ++ [row]).countP (fun m => m.user_id == some u) ≤ 1 := by
  rw [List.countP_append]
  by_cases hu : u = e
  · subst hu
    have hzero : l.countP (fun m => m.user_id == some u) = 0 := by
      rw [List.countP_eq_zero]
      exact List.find?_eq_none.mp hnone
    have hone : List.countP (fun m => m.user_id == some u) [row] ≤ 1 :=
      List.countP_le_length _
    omega
  · have hzero : List.countP (fun m => m.user_id == some u) [row] = 0 := by
      rw [List.countP_eq_zero]
      intro m hm
      rw [List.mem_singleton] at hm
      subst hm
      simp only [hrow, beq_iff_eq, Option.some.injEq]
      exact fun hc => hu hc.symm
    have := hinv u
    omega

/-- The state `create_company` commits: unchanged on the 403 path, otherwise
the member table grows by exactly the founding Admin row of the creator. -/
lemma create_company_state (info : CompanyCreate) (user : TokenData) (st : AppState) :
    (create_company info user st).2 = st ∨
    (st.members.find? (fun m => m.user_id == some user.email) = none ∧
     (create_company info user st).2.members =
       st.members ++ [⟨some user.email, some st.next_company_id, MemberRole.ADMIN, "Founder"⟩]) := by
  unfold create_company
  cases hf : st.members.find? (fun m => m.user_id == some user.email) with
  | some m => exact Or.inl rfl
  | none => exact Or.inr ⟨rfl, rfl⟩

/-- The state `join_company_via_invite` commits: unchanged on every failure
path, otherwise the member table grows by exactly one row for the caller. -/
lemma join_company_state (tok : JwtToken) (user : TokenData) (now : Nat) (st : AppState) :
    (join_company_via_invite tok user now st).2 = st ∨
    (st.members.find? (fun m => m.user_id == some user.email) = none ∧
     ∃ c r pos, (join_company_via_invite tok user now st).2.members =
       st.members ++ [⟨some user.email, c, r, pos⟩]) := by
  unfold join_company_via_invite
  split
  · exact Or.inl rfl
  · next hf =>
    split
    · exact Or.inl rfl
    · split
      · exact Or.inl rfl
      · next invt hp =>
        split
        · exact Or.inl rfl
        · next company hc =>
          exact Or.inr ⟨hf, some company.id, invt.role, invt.position, rfl⟩

/-! ## Claim theorems -/

/-- C1 (counterexample): starting from the empty state, `create_company` for
alice establishes the single-company invariant, but a subsequent targeted
redemption (`accept_invitation_link`) of a valid token naming alice inserts a
second row for her — so not every inserting operation preserves the
invariant. -/
theorem targeted_join_breaks_single_company_invariant :
    SingleCompanyInvariant
      ((create_company ⟨"Acme"⟩ ⟨"alice@x.com", none, none⟩ {}).2) ∧
    ¬ SingleCompanyInvariant
        ((accept_invitation_link
            ⟨⟨some "alice@x.com", some 1, some "Member", some "Employee", 100⟩, true⟩ 0
            (create_company ⟨"Acme"⟩ ⟨"alice@x.com", none, none⟩ {}).2).2) := by
  constructor
  · exact singleCompany_of_length_le_one _ (by decide)
  · intro h
    exact absurd (h "alice@x.com") (by decide)

/-- C1 (amended): `create_company` and the generic redemption
`join_company_via_invite` preserve the single-company-per-user invariant
(both guard on the caller holding no `CompanyMember` row before inserting);
the targeted redemption `accept_invitation_link` does not check membership
and can insert a second row for a user. -/
theorem create_and_generic_join_preserve_single_company
    (st : AppState) (info : CompanyCreate) (user : TokenData) (tok : JwtToken) (now : Nat)
    (hinv : SingleCompanyInvariant st) :
    SingleCompanyInvariant (create_company info user st).2 ∧
    SingleCompanyInvariant (join_company_via_invite tok user now st).2 := by
  constructor
  · rcases create_company_state info user st with h | ⟨hf, hm⟩
    · rwa [h]
    · simp only [SingleCompanyInvariant, memberRowsFor] at hinv ⊢
      intro u
      rw [hm]
      exact countP_member_append_le_one st.members _ user.email rfl hf hinv u
  · rcases join_company_state tok user now st with h | ⟨hf, c, r, pos, hm⟩
    · rwa [h]
    · simp only [SingleCompanyInvariant, memberRowsFor] at hinv ⊢
      intro u
      rw [hm]
      exact countP_member_append_le_one st.members _ user.email rfl hf hinv u

/-- Witness for `create_and_generic_join_preserve_single_company` at the
empty state. -/
theorem create_and_generic_join_preserve_single_company_witness :
    SingleCompanyInvariant
      (create_company ⟨"Beta"⟩ ⟨"bob@x.com", none, none⟩ {}).2 ∧
    SingleCompanyInvariant
      (join_company_via_invite ⟨⟨none, some 1, some "Member", some "Employee", 50⟩, true⟩
        ⟨"bob@x.com", none, none⟩ 0 {}).2 :=
  create_and_generic_join_preserve_single_company {} ⟨"Beta"⟩ ⟨"bob@x.com", none, none⟩
    ⟨⟨none, some 1, some "Member", some "Employee", 50⟩, true⟩ 0
    (singleCompany_of_length_le_one {} (by decide))

/-- C3 (code bug): a caller whose role is `Member` — not Admin — passes no
role check in `change_task_status` (task_router.py:112-122) and in
`update_company` (company_router.py:170-191): both mutate and report success
instead of returning Forbidden. -/
theorem non_admin_can_mutate_task_status_and_company :
    (⟨"mallory@x.com", some 1, some "Member"⟩ : TokenData).role ≠ some "Admin" ∧
    (change_task_status 1 "done" ⟨"mallory@x.com", some 1, some "Member"⟩
        { companies := [⟨1, "Acme", "alice@x.com"⟩],
          members := [⟨some "mallory@x.com", some 1, "Member", "Employee"⟩],
          tasks := [⟨1, "Ship the feature", "todo"⟩] }).1 =
      .ok ⟨"Task status updated successfully"⟩ ∧
    (change_task_status 1 "done" ⟨"mallory@x.com", some 1, some "Member"⟩
        { companies := [⟨1, "Acme", "alice@x.com"⟩],
          members := [⟨some "mallory@x.com", some 1, "Member", "Employee"⟩],
          tasks := [⟨1, "Ship the feature", "todo"⟩] }).2.tasks =
      [⟨1, "Ship the feature", "done"⟩] ∧
    (update_company ⟨"Renamed"⟩ ⟨"mallory@x.com", some 1, some "Member"⟩
        { companies := [⟨1, "Acme", "alice@x.com"⟩],
          members := [⟨some "mallory@x.com", some 1, "Member", "Employee"⟩],
          tasks := [⟨1, "Ship the feature", "todo"⟩] }).2.companies =
      [⟨1, "Renamed", "alice@x.com"⟩] := by decide

/-- C4 (code bug): `create_company` runs TWO separate commits
(company_router.py:49 and 60); the state committed after the first one
already contains the `Company` row but no `CompanyMember` row at all, so a
failure (or observer) between the commits sees a company without its
founding Admin — the inserts are not atomic. -/
theorem create_company_commits_company_before_founding_member :
    (create_company_after_first_commit ⟨"Acme"⟩ ⟨"alice@x.com", none, none⟩ {}).companies =
      [⟨1, "Acme", "alice@x.com"⟩] ∧
    (create_company_after_first_commit ⟨"Acme"⟩ ⟨"alice@x.com", none, none⟩ {}).members = [] ∧
    (create_company ⟨"Acme"⟩ ⟨"alice@x.com", none, none⟩ {}).2.members =
      [⟨some "alice@x.com", some 1, MemberRole.ADMIN, "Founder"⟩] := by decide

/-- C6 (counterexample): a creator who already holds a membership row is
rejected by `create_company` with HTTP 403 (Forbidden), not 409 (Conflict)
as the claim states; no rows are inserted. -/
theorem existing_member_create_company_is_forbidden_not_conflict :
    (create_company ⟨"NewCo"⟩ ⟨"alice@x.com", some 1, some "Admin"⟩
        { companies := [⟨1, "Acme", "alice@x.com"⟩],
          members := [⟨some "alice@x.com", some 1, "Admin", "Founder"⟩],
          next_company_id := 2 }).1 =
      .error ⟨403, "You already own or belong to a company. You cannot create another one."⟩ ∧
    (403 : Nat) ≠ 409 ∧
    (create_company ⟨"NewCo"⟩ ⟨"alice@x.com", some 1, some "Admin"⟩
        { companies := [⟨1, "Acme", "alice@x.com"⟩],
          members := [⟨some "alice@x.com", some 1, "Admin", "Founder"⟩],
          next_company_id := 2 }).2 =
      { companies := [⟨1, "Acme", "alice@x.com"⟩],
        members := [⟨some "alice@x.com", some 1, "Admin", "Founder"⟩],
        next_company_id := 2 } := by decide

/-- C6 (amended): for every creator who already holds any `CompanyMember`
row, `create_company` fails with HTTP 403 Forbidden and leaves the state
exactly unchanged (no `Company` row, no `CompanyMember` row inserted). -/
theorem create_company_rejects_existing_member
    (st : AppState) (user : TokenData) (info : CompanyCreate)
    (h : (st.members.find? (fun m => m.user_id == some user.email)).isSome = true) :
    create_company info user st =
      (.error ⟨403, "You already own or belong to a company. You cannot create another one."⟩,
       st) := by
  unfold create_company
  split
  · rfl
  · next hf =>
    rw [hf] at h
    simp at h

/-- Witness for `create_company_rejects_existing_member`. -/
theorem create_company_rejects_existing_member_witness :
    (((⟨[], [⟨1, "Acme", "a@x.com"⟩], [⟨some "a@x.com", some 1, "Admin", "Founder"⟩], [], [], [], 2⟩ :
        AppState)).members.find? (fun m => m.user_id == some "a@x.com")).isSome = true ∧
    create_company ⟨"B"⟩ ⟨"a@x.com", some 1, some "Admin"⟩
        ⟨[], [⟨1, "Acme", "a@x.com"⟩], [⟨some "a@x.com", some 1, "Admin", "Founder"⟩], [], [], [], 2⟩ =
      (.error ⟨403, "You already own or belong to a company. You cannot create another one."⟩,
       ⟨[], [⟨1, "Acme", "a@x.com"⟩], [⟨some "a@x.com", some 1, "Admin", "Founder"⟩], [], [], [], 2⟩) :=
  ⟨by decide,
   create_company_rejects_existing_member
     ⟨[], [⟨1, "Acme", "a@x.com"⟩], [⟨some "a@x.com", some 1, "Admin", "Founder"⟩], [], [], [], 2⟩
     ⟨"a@x.com", some 1, some "Admin"⟩ ⟨"B"⟩ (by decide)⟩

/-- C5 (counterexample): redeeming the same valid targeted token twice via
`accept_invitation_link` has the SECOND redemption succeed as well (it does
not fail with Conflict), leaving two identical `CompanyMember` rows for the
invited email. -/
theorem targeted_invite_double_redemption_not_conflict :
    (accept_invitation_link ⟨⟨some "bob@x.com", some 1, some "Member", some "Employee", 100⟩, true⟩
        0 { companies := [⟨1, "Acme", "alice@x.com"⟩],
            members := [⟨some "alice@x.com", some 1, "Admin", "Founder"⟩],
            next_company_id := 2 }).1 =
      .ok ⟨"You have successfully joined the company."⟩ ∧
    (accept_invitation_link ⟨⟨some "bob@x.com", some 1, some "Member", some "Employee", 100⟩, true⟩
        0 (accept_invitation_link
            ⟨⟨some "bob@x.com", some 1, some "Member", some "Employee", 100⟩, true⟩
            0 { companies := [⟨1, "Acme", "alice@x.com"⟩],
                members := [⟨some "alice@x.com", some 1, "Admin", "Founder"⟩],
                next_company_id := 2 }).2).1 =
      .ok ⟨"You have successfully joined the company."⟩ ∧
    memberRowsFor "bob@x.com"
      (accept_invitation_link ⟨⟨some "bob@x.com", some 1, some "Member", some "Employee", 100⟩, true⟩
        0 (accept_invitation_link
            ⟨⟨some "bob@x.com", some 1, some "Member", some "Employee", 100⟩, true⟩
            0 { companies := [⟨1, "Acme", "alice@x.com"⟩],
                members := [⟨some "alice@x.com", some 1, "Admin", "Founder"⟩],
                next_company_id := 2 }).2).2 = 2 := by decide

/-- C5 (amended): redeeming a valid generic invitation twice via
`join_company_via_invite` (caller initially member-less, company exists):
the first redemption succeeds and appends exactly one `CompanyMember` row;
the second fails with HTTP 403 Forbidden ("You are already a member of a
company.") — not 409 Conflict — leaving the state unchanged.  Redeeming a
valid targeted token twice via `accept_invitation_link` succeeds both times
and appends two identical rows. -/
theorem generic_invite_first_succeeds_second_forbidden
    (st : AppState) (user : TokenData) (tok : JwtToken) (now : Nat)
    (p : JwtPayload) (invt : InvitationToken) (company : Company)
    (hmem : st.members.find? (fun m => m.user_id == some user.email) = none)
    (hdec : decode_jwt_token tok now = some p)
    (hparse : parseInvitationToken p = some invt)
    (hcomp : st.companies.find? (fun c => c.id == invt.company_id) = some company) :
    join_company_via_invite tok user now st =
      (.ok ⟨"You have successfully joined the company: " ++ company.name⟩,
       { st with members :=
           st.members ++ [⟨some user.email, some company.id, invt.role, invt.position⟩] }) ∧
    join_company_via_invite tok user now
        { st with members :=
            st.members ++ [⟨some user.email, some company.id, invt.role, invt.position⟩] } =
      (.error ⟨403, "You are already a member of a company."⟩,
       { st with members :=
           st.members ++ [⟨some user.email, some company.id, invt.role, invt.position⟩] }) ∧
    (∀ (tok2 : JwtToken) (now2 : Nat) (st2 : AppState) (p2 : JwtPayload),
      decode_jwt_token tok2 now2 = some p2 →
      (accept_invitation_link tok2 now2 (accept_invitation_link tok2 now2 st2).2).2.members =
        st2.members ++ [member_from_payload p2, member_from_payload p2]) := by
  refine ⟨?_, ?_, ?_⟩
  · simp only [join_company_via_invite, hmem, hdec, hparse, hcomp]
  · have hrow : (st.members ++
        [(⟨some user.email, some company.id, invt.role, invt.position⟩ : CompanyMember)]).find?
          (fun m => m.user_id == some user.email) =
        some ⟨some user.email, some company.id, invt.role, invt.position⟩ := by
      rw [List.find?_append, hmem]
      simp [List.find?]
    simp only [join_company_via_invite]
    rw [hrow]
  · intro tok2 now2 st2 p2 hdec2
    simp only [accept_invitation_link, hdec2]
    simp [List.append_assoc]

/-- Witness for `generic_invite_first_succeeds_second_forbidden`. -/
theorem generic_invite_first_succeeds_second_forbidden_witness :
    join_company_via_invite ⟨⟨none, some 1, some "Member", some "Employee", 60⟩, true⟩
        ⟨"carol@x.com", none, none⟩ 0
        { companies := [⟨1, "Acme", "alice@x.com"⟩],
          members := [⟨some "alice@x.com", some 1, "Admin", "Founder"⟩],
          next_company_id := 2 } =
      (.ok ⟨"You have successfully joined the company: Acme"⟩,
       { companies := [⟨1, "Acme", "alice@x.com"⟩],
         members := [⟨some "alice@x.com", some 1, "Admin", "Founder"⟩,
                     ⟨some "carol@x.com", some 1, "Member", "Employee"⟩],
         next_company_id := 2 }) ∧
    join_company_via_invite ⟨⟨none, some 1, some "Member", some "Employee", 60⟩, true⟩
        ⟨"carol@x.com", none, none⟩ 0
        { companies := [⟨1, "Acme", "alice@x.com"⟩],
          members := [⟨some "alice@x.com", some 1, "Admin", "Founder"⟩,
                      ⟨some "carol@x.com", some 1, "Member", "Employee"⟩],
          next_company_id := 2 } =
      (.error ⟨403, "You are already a member of a company."⟩,
       { companies := [⟨1, "Acme", "alice@x.com"⟩],
         members := [⟨some "alice@x.com", some 1, "Admin", "Founder"⟩,
                     ⟨some "carol@x.com", some 1, "Member", "Employee"⟩],
         next_company_id := 2 }) := by
  have h := generic_invite_first_succeeds_second_forbidden
    { companies := [⟨1, "Acme", "alice@x.com"⟩],
      members := [⟨some "alice@x.com", some 1, "Admin", "Founder"⟩],
      next_company_id := 2 }
    ⟨"carol@x.com", none, none⟩
    ⟨⟨none, some 1, some "Member", some "Employee", 60⟩, true⟩ 0
    ⟨none, some 1, some "Member", some "Employee", 60⟩ ⟨1, "Member", "Employee"⟩
    ⟨1, "Acme", "alice@x.com"⟩ (by decide) (by decide) (by decide) (by decide)
  exact ⟨h.1, h.2.1⟩

/-- C7 (counterexample): an expired token redeemed on the generic endpoint by
a caller who is already a member fails with the already-a-member Forbidden
error, NOT with the invalid/expired-token error: the membership check runs
before the token is decoded. -/
theorem expired_token_member_caller_gets_already_member_error :
    (⟨⟨none, some 1, some "Member", some "Employee", 5⟩, true⟩ : JwtToken).payload.exp ≤ 10 ∧
    (join_company_via_invite ⟨⟨none, some 1, some "Member", some "Employee", 5⟩, true⟩
        ⟨"alice@x.com", some 1, some "Admin"⟩ 10
        { companies := [⟨1, "Acme", "alice@x.com"⟩],
          members := [⟨some "alice@x.com", some 1, "Admin", "Founder"⟩],
          next_company_id := 2 }).1 =
      .error ⟨403, "You are already a member of a company."⟩ ∧
    (⟨403, "You are already a member of a company."⟩ : HTTPError) ≠
      ⟨403, "Invalid or expired invitation token."⟩ := by decide

/-- C7 (amended): an invitation token whose embedded expiry has passed never
creates a `CompanyMember` row.  `accept_invitation_link` always fails with
the invalid/expired-token error (HTTP 400); `join_company_via_invite` leaves
the state unchanged and fails with the invalid/expired-token error (HTTP
403) whenever the caller is not already a member — a caller who already has a
membership gets the already-a-member error first. -/
theorem expired_token_never_creates_membership
    (tok : JwtToken) (now : Nat) (user : TokenData) (st : AppState)
    (hexp : tok.payload.exp ≤ now) :
    accept_invitation_link tok now st =
      (.error ⟨400, "Invalid or expired invitation token."⟩, st) ∧
    (join_company_via_invite tok user now st).2 = st ∧
    (st.members.find? (fun m => m.user_id == some user.email) = none →
      join_company_via_invite tok user now st =
        (.error ⟨403, "Invalid or expired invitation token."⟩, st)) := by
  have hdec : decode_jwt_token tok now = none := by
    unfold decode_jwt_token
    rw [if_neg]
    rintro ⟨-, hlt⟩
    omega
  refine ⟨?_, ?_, ?_⟩
  · simp only [accept_invitation_link, hdec]
  · unfold join_company_via_invite
    split
    · rfl
    · simp only [hdec]
  · intro hmem
    unfold join_company_via_invite
    split
    · next m hf =>
      rw [hmem] at hf
      exact Option.noConfusion hf
    · simp only [hdec]

/-- Witness for `expired_token_never_creates_membership`. -/
theorem expired_token_never_creates_membership_witness :
    (⟨⟨some "bob@x.com", some 1, some "Member", some "Employee", 7⟩, true⟩ : JwtToken).payload.exp
      ≤ 99 ∧
    accept_invitation_link
        ⟨⟨some "bob@x.com", some 1, some "Member", some "Employee", 7⟩, true⟩ 99 {} =
      (.error ⟨400, "Invalid or expired invitation token."⟩, {}) ∧
    join_company_via_invite
        ⟨⟨some "bob@x.com", some 1, some "Member", some "Employee", 7⟩, true⟩
        ⟨"bob@x.com", none, none⟩ 99 {} =
      (.error ⟨403, "Invalid or expired invitation token."⟩, {}) := by
  have h := expired_token_never_creates_membership
    ⟨⟨some "bob@x.com", some 1, some "Member", some "Employee", 7⟩, true⟩ 99
    ⟨"bob@x.com", none, none⟩ {} (by decide)
  exact ⟨by decide, h.1, h.2.2 (by decide)⟩

/-- C2 (counterexample): a valid targeted token embedding
`new_member_email = bob@x.com` is redeemed by a bearer whose identity is
`alice@x.com` — a different identity — yet redemption SUCCEEDS and inserts
the `CompanyMember` row for bob, instead of failing with
Forbidden/Rejected. -/
theorem mismatched_bearer_still_joins :
    "alice@x.com" ≠ "bob@x.com" ∧
    (accept_invitation_link_as "alice@x.com"
        ⟨⟨some "bob@x.com", some 1, some "Member", some "Employee", 100⟩, true⟩ 0 {}).1 =
      .ok ⟨"You have successfully joined the company."⟩ ∧
    (accept_invitation_link_as "alice@x.com"
        ⟨⟨some "bob@x.com", some 1, some "Member", some "Employee", 100⟩, true⟩ 0 {}).2.members =
      [⟨some "bob@x.com", some 1, "Member", "Employee"⟩] := by decide

/-- C2 (amended): the targeted join endpoint performs NO identity check at
all: its outcome is the same for every redeeming identity, and for every
valid (decodable, unexpired) token it succeeds and inserts the row for the
token's embedded target email, no matter who redeems it. -/
theorem targeted_join_never_checks_redeemer
    (redeemer : String) (tok : JwtToken) (now : Nat) (st : AppState) (p : JwtPayload)
    (hdec : decode_jwt_token tok now = some p) :
    accept_invitation_link_as redeemer tok now st = accept_invitation_link tok now st ∧
    accept_invitation_link_as redeemer tok now st =
      (.ok ⟨"You have successfully joined the company."⟩,
       { st with members := st.members ++ [member_from_payload p] }) := by
  refine ⟨rfl, ?_⟩
  simp only [accept_invitation_link_as, accept_invitation_link, hdec]

/-- Witness for `targeted_join_never_checks_redeemer`. -/
theorem targeted_join_never_checks_redeemer_witness :
    decode_jwt_token ⟨⟨some "dora@x.com", some 4, some "Member", some "Employee", 30⟩, true⟩ 3 =
      some ⟨some "dora@x.com", some 4, some "Member", some "Employee", 30⟩ ∧
    accept_invitation_link_as "eve@x.com"
        ⟨⟨some "dora@x.com", some 4, some "Member", some "Employee", 30⟩, true⟩ 3 {} =
      (.ok ⟨"You have successfully joined the company."⟩,
       { members := [⟨some "dora@x.com", some 4, "Member", "Employee"⟩] }) := by
  have h := targeted_join_never_checks_redeemer "eve@x.com"
    ⟨⟨some "dora@x.com", some 4, some "Member", some "Employee", 30⟩, true⟩ 3 {}
    ⟨some "dora@x.com", some 4, some "Member", some "Employee", 30⟩ (by decide)
  exact ⟨by decide, by rw [h.2]; rfl⟩

/-- C10: for every state (in particular states where no `User` with the
embedded email exists and no `Company` with the embedded id exists) and
every token that decodes successfully, the unauthenticated
`accept_invitation_link` handler succeeds and appends exactly the
`CompanyMember` row built from the token payload; the handler takes no
caller identity at all, so any bearer of the token triggers the insert. -/
theorem public_join_inserts_for_any_bearer
    (tok : JwtToken) (now : Nat) (st : AppState) (p : JwtPayload)
    (hdec : decode_jwt_token tok now = some p) :
    accept_invitation_link tok now st =
      (.ok ⟨"You have successfully joined the company."⟩,
       { st with members := st.members ++ [member_from_payload p] }) := by
  simp only [accept_invitation_link, hdec]

/-- Witness for `public_join_inserts_for_any_bearer`: the state is empty —
no `User` row for the embedded email, no `Company` row 9 — and the insert
still happens. -/
theorem public_join_inserts_for_any_bearer_witness :
    decode_jwt_token ⟨⟨some "frank@x.com", some 9, some "Member", some "Intern", 80⟩, true⟩ 10 =
      some ⟨some "frank@x.com", some 9, some "Member", some "Intern", 80⟩ ∧
    accept_invitation_link
        ⟨⟨some "frank@x.com", some 9, some "Member", some "Intern", 80⟩, true⟩ 10 {} =
      (.ok ⟨"You have successfully joined the company."⟩,
       { members := [⟨some "frank@x.com", some 9, "Member", "Intern"⟩] }) := by
  have h := public_join_inserts_for_any_bearer
    ⟨⟨some "frank@x.com", some 9, some "Member", some "Intern", 80⟩, true⟩ 10 {}
    ⟨some "frank@x.com", some 9, some "Member", some "Intern", 80⟩ (by decide)
  exact ⟨by decide, by rw [h]; rfl⟩

/-- C8 (counterexample): a caller who holds a membership row with role
`Member` is REJECTED with 403 "Admins only" when viewing a sale of their own
company — sales reads are not membership-only. -/
theorem member_role_cannot_view_sale :
    (read_sale 1 ⟨"mallory@x.com", some 1, some "Member"⟩
        { members := [⟨some "mallory@x.com", some 1, "Member", "Employee"⟩],
          sales := [⟨1, some 1, 100⟩] }) =
      .error ⟨403, "Admins only"⟩ ∧
    (read_all_sales ⟨"mallory@x.com", some 1, some "Member"⟩
        { members := [⟨some "mallory@x.com", some 1, "Member", "Employee"⟩],
          sales := [⟨1, some 1, 100⟩] }) =
      .error ⟨403, "Admins only"⟩ := by decide

/-- C8 (amended): sales reads (`read_sale`, `read_all_sales`) are routed
through `admin_required`: every caller whose session role does not lower-case
to "admin" — membership or not — receives HTTP 403 "Admins only".  Task views
(`read_task_by_task_id`) and member listing (`list_company_members`), by
contrast, never examine the caller's role: their outcome is identical under
any role, a membership-holding caller reads an existing task, and a caller
whose session carries a (truthy) company id gets the member list. -/
theorem sales_reads_require_admin_role
    (user : TokenData) (r : String) (hrole : user.role = some r)
    (hnotadmin : lower r ≠ "admin") (sale_id task_id : Nat) (st : AppState) :
    read_sale sale_id user st = .error ⟨403, "Admins only"⟩ ∧
    read_all_sales user st = .error ⟨403, "Admins only"⟩ ∧
    (∀ r2 : Option String,
      read_task_by_task_id task_id { user with role := r2 } st =
        read_task_by_task_id task_id user st) ∧
    (∀ r2 : Option String,
      list_company_members { user with role := r2 } st = list_company_members user st) ∧
    (st.members.any (fun m => m.user_id == some user.email) = true →
      ∀ t, st.tasks.find? (fun t2 => t2.id == task_id) = some t →
      ∃ resp, read_task_by_task_id task_id user st = .ok resp) ∧
    (∀ cid : Nat, user.company_id = some cid → cid ≠ 0 →
      ∃ rows, list_company_members user st = .ok rows) := by
  have hgate : admin_required user = .error ⟨403, "Admins only"⟩ := by
    simp only [admin_required, hrole]
    rw [if_pos hnotadmin]
  refine ⟨?_, ?_, ?_, ?_, ?_, ?_⟩
  · simp only [read_sale, hgate]
  · simp only [read_all_sales, hgate]
  · intro r2
    rfl
  · intro r2
    rfl
  · intro hmem t ht
    have hget : get_task task_id user st = some t := by
      unfold get_task
      rw [if_pos hmem, ht]
    unfold read_task_by_task_id
    rw [hget]
    exact ⟨_, rfl⟩
  · intro cid hcid hcid0
    simp only [list_company_members, hcid]
    rw [if_neg hcid0]
    exact ⟨_, rfl⟩

/-- Witness for `sales_reads_require_admin_role`: the Member caller is
rejected from both sales reads, while the same caller's task view and member
listing are role-independent and succeed. -/
theorem sales_reads_require_admin_role_witness :
    (⟨"mia@x.com", some 2, some "Member"⟩ : TokenData).role = some "Member" ∧
    lower "Member" ≠ "admin" ∧
    read_sale 7 ⟨"mia@x.com", some 2, some "Member"⟩
        { members := [⟨some "mia@x.com", some 2, "Member", "Employee"⟩],
          tasks := [⟨3, "T", "todo"⟩],
          sales := [⟨7, some 2, 55⟩] } =
      .error ⟨403, "Admins only"⟩ ∧
    read_all_sales ⟨"mia@x.com", some 2, some "Member"⟩
        { members := [⟨some "mia@x.com", some 2, "Member", "Employee"⟩],
          tasks := [⟨3, "T", "todo"⟩],
          sales := [⟨7, some 2, 55⟩] } =
      .error ⟨403, "Admins only"⟩ ∧
    read_task_by_task_id 3 ⟨"mia@x.com", some 2, some "Admin"⟩
        { members := [⟨some "mia@x.com", some 2, "Member", "Employee"⟩],
          tasks := [⟨3, "T", "todo"⟩],
          sales := [⟨7, some 2, 55⟩] } =
      read_task_by_task_id 3 ⟨"mia@x.com", some 2, some "Member"⟩
        { members := [⟨some "mia@x.com", some 2, "Member", "Employee"⟩],
          tasks := [⟨3, "T", "todo"⟩],
          sales := [⟨7, some 2, 55⟩] } ∧
    (∃ resp, read_task_by_task_id 3 ⟨"mia@x.com", some 2, some "Member"⟩
        { members := [⟨some "mia@x.com", some 2, "Member", "Employee"⟩],
          tasks := [⟨3, "T", "todo"⟩],
          sales := [⟨7, some 2, 55⟩] } = .ok resp) ∧
    (∃ rows, list_company_members ⟨"mia@x.com", some 2, some "Member"⟩
        { members := [⟨some "mia@x.com", some 2, "Member", "Employee"⟩],
          tasks := [⟨3, "T", "todo"⟩],
          sales := [⟨7, some 2, 55⟩] } = .ok rows) := by
  have h := sales_reads_require_admin_role ⟨"mia@x.com", some 2, some "Member"⟩ "Member" rfl
    (by decide) 7 3
    { members := [⟨some "mia@x.com", some 2, "Member", "Employee"⟩],
      tasks := [⟨3, "T", "todo"⟩],
      sales := [⟨7, some 2, 55⟩] }
  exact ⟨rfl, by decide, h.1, h.2.1, h.2.2.1 (some "Admin"),
    h.2.2.2.2.1 (by decide) ⟨3, "T", "todo"⟩ (by decide),
    h.2.2.2.2.2 2 rfl (by decide)⟩

/-- C9: `authenticate_user` fails with the one literal error
`401 "Invalid email or password"` both when no user with the email exists
and when password verification fails, for every verifier — the two failure
cases produce identical responses, so a caller cannot distinguish an absent
account from a wrong password. -/
theorem authenticate_uniform_unauthorized
    (verify : String → String → Bool) (st : AppState) (email pwd : String) :
    (st.users.find? (fun u => u.email == email) = none →
      authenticate_user verify email pwd st = .error ⟨401, "Invalid email or password"⟩) ∧
    (∀ u, st.users.find? (fun v => v.email == email) = some u →
      verify pwd u.password = false →
      authenticate_user verify email pwd st = .error ⟨401, "Invalid email or password"⟩) := by
  constructor
  · intro h
    simp only [authenticate_user, h]
  · intro u hu hv
    unfold authenticate_user
    split
    · rfl
    · next u1 h2 =>
      rw [hu] at h2
      injection h2 with h3
      subst h3
      rw [if_pos hv]

/-- Witness for `authenticate_uniform_unauthorized`: with one stored user,
an unknown email (under an always-true verifier) and a wrong password (under
an always-false verifier) yield the very same error value. -/
theorem authenticate_uniform_unauthorized_witness :
    ((⟨[⟨1, "bob@x.com", "Bob", "hash"⟩], [], [], [], [], [], 1⟩ : AppState).users.find?
        (fun u => u.email == "ghost@x.com") = none) ∧
    authenticate_user (fun _ _ => true) "ghost@x.com" "pw"
        ⟨[⟨1, "bob@x.com", "Bob", "hash"⟩], [], [], [], [], [], 1⟩ =
      .error ⟨401, "Invalid email or password"⟩ ∧
    authenticate_user (fun _ _ => false) "bob@x.com" "wrong"
        ⟨[⟨1, "bob@x.com", "Bob", "hash"⟩], [], [], [], [], [], 1⟩ =
      .error ⟨401, "Invalid email or password"⟩ :=
  ⟨by decide,
   (authenticate_uniform_unauthorized (fun _ _ => true)
       ⟨[⟨1, "bob@x.com", "Bob", "hash"⟩], [], [], [], [], [], 1⟩ "ghost@x.com" "pw").1 (by decide),
   (authenticate_uniform_unauthorized (fun _ _ => false)
       ⟨[⟨1, "bob@x.com", "Bob", "hash"⟩], [], [], [], [], [], 1⟩ "bob@x.com" "wrong").2
     ⟨1, "bob@x.com", "Bob", "hash"⟩ (by decide) rfl⟩

end SEBetterStart
